import Mathlib

/-!
Shallow embedding of the sales-analysis controller (`getSalesAnalysis`):
the store data model, the nine read-only queries' row shapes and filters,
the per-facet in-memory aggregators, and the response assembly, together
with theorems checking the specification's claims against them.

Numeric conventions: SQL `numeric` amounts are embedded as `Rat`, SQL
integer counts as `Int`, and JavaScript `parseInt`/`parseFloat` results as
`JNum` (a rational or NaN) so that the presence or absence of an `|| 0`
default in the source is observable.
-/

namespace SalesAnalysis

/-- A JavaScript number as produced by `parseInt`/`parseFloat`: NaN or a rational. -/
inductive JNum where
  | nan : JNum
  | num : Rat → JNum
deriving DecidableEq, Repr

/-- JavaScript `+` on numbers: NaN propagates. -/
def JNum.add : JNum → JNum → JNum
  | .num a, .num b => .num (a + b)
  | _, _ => .nan

/-- JS `parseInt` applied to a nullable integer column value: null parses to NaN. -/
def parseIntJ : Option Int → JNum
  | none => .nan
  | some n => .num n

/-- JS `parseFloat` applied to a nullable numeric column value: null parses to NaN. -/
def parseFloatJ : Option Rat → JNum
  | none => .nan
  | some q => .num q

/-- JS `x || 0` on a number: NaN (and 0 itself) collapse to 0. -/
def jOrZero : JNum → Rat
  | .nan => 0
  | .num q => q

/-- The composite `parseFloat(v) || 0`: the zero-defaulting normalization for amounts. -/
def parseFloatD (v : Option Rat) : Rat := jOrZero (parseFloatJ v)

/-- The composite `parseInt(v) || 0`: the zero-defaulting normalization for integer counts. -/
def parseIntD (v : Option Int) : Int := v.getD 0

/-- SQL `LOWER`, character-wise. -/
def sqlLower (s : String) : String := String.mk (s.data.map Char.toLower)

/-- The whitespace characters stripped by `String.prototype.trim`. -/
def isWsChar (c : Char) : Bool := c = ' ' || c = '\t' || c = '\n' || c = '\r'

/-- JavaScript `String.prototype.trim`. -/
def jsTrim (s : String) : String :=
  String.mk (((s.data.dropWhile isWsChar).reverse.dropWhile isWsChar).reverse)

/-- A jsonb scalar inside a product line item. -/
inductive JVal where
  | null : JVal
  | str (s : String) : JVal
  | int (n : Int) : JVal
deriving DecidableEq, Repr

/-- A product line item: a jsonb object given as a key/value list. -/
abbrev PItem := List (String × JVal)

/-- jsonb `?` key-existence operator. -/
def hasKey (o : PItem) (k : String) : Bool := (o.lookup k).isSome

/-- jsonb `->>`: the text of a value, NULL for a JSON null. -/
def textOf : JVal → Option String
  | .null => none
  | .str s => some s
  | .int n => some (toString n)

def pgDigitsAux : List Char → Nat → Option Nat
  | [], acc => some acc
  | c :: cs, acc => if c.isDigit then pgDigitsAux cs (acc * 10 + (c.toNat - 48)) else none

def pgDigits (cs : List Char) : Option Nat :=
  match cs with
  | [] => none
  | _ => pgDigitsAux cs 0

/-- Postgres cast of text to `integer`: an optionally signed digit string,
anything else raises `invalid input syntax`. -/
def pgTextToInt (s : String) : Option Int :=
  match s.data with
  | '-' :: cs => (pgDigits cs).map (fun n => -(n : Int))
  | '+' :: cs => (pgDigits cs).map (fun n => (n : Int))
  | cs => (pgDigits cs).map (fun n => (n : Int))

/-- A row of `public.bookings`.  `products = none` stands for a products
column that is NULL or not a jsonb array. -/
structure Booking where
  order_id : Int
  district : Option String
  status : String
  total : Option Rat
  amount_paid : Option Rat
  customer_type : Option String
  created_at : Int
  products : Option (List PItem)
deriving DecidableEq, Repr

/-- A row of `public.fwcquotations`. -/
structure Quotation where
  quotation_id : Int
  district : Option String
  status : String
  total : Option Rat
  created_at : Int
  products : Option (List PItem)
deriving DecidableEq, Repr

/-- The relational store read by the controller. -/
structure Store where
  bookings : List Booking
  fwcquotations : List Quotation
deriving DecidableEq, Repr

/-- The confirmed-order status set. -/
def confirmedStatuses : List String := ["booked", "paid", "dispatched", "packed", "delivered"]

/-- Query 1 (validateProducts): per-table counts of rows whose raw status is in
the fixed set — the source SQL has no LOWER here — and whose products column is
NULL or not an array. -/
def validateProductsQuery (st : Store) : List (String × Nat) :=
  [("bookings",
     (st.bookings.filter (fun b => confirmedStatuses.contains b.status && b.products.isNone)).length),
   ("fwcquotations",
     (st.fwcquotations.filter (fun q =>
        (["booked", "pending"].contains q.status) && q.products.isNone)).length)]

/-- A row of the products query as seen by the JavaScript reducer. -/
structure ProductRow where
  productname : Option String
  quantity : Int
deriving DecidableEq, Repr

/-- SQL `COALESCE((p.product->>'quantity')::integer, 0)`: a JSON-null (or absent)
quantity coalesces to 0; non-numeric text makes the cast raise. -/
def castQuantity (o : PItem) : Except String Int :=
  match (o.lookup "quantity").bind textOf with
  | none => .ok 0
  | some t =>
    match pgTextToInt t with
    | some n => .ok n
    | none => .error "invalid input syntax for type integer"

/-- The lateral jsonb_array_elements of a booking, keeping only items having
both the `productname` and `quantity` keys (the query's `?` filters). -/
def guardedItems (b : Booking) : List PItem :=
  match b.products with
  | none => []
  | some items => items.filter (fun o => hasKey o "productname" && hasKey o "quantity")

def collectRows : List PItem → Except String (List ProductRow)
  | [] => .ok []
  | o :: os =>
    match castQuantity o with
    | .error e => .error e
    | .ok q =>
      match collectRows os with
      | .error e => .error e
      | .ok rest => .ok (⟨(o.lookup "productname").bind textOf, q⟩ :: rest)

/-- Query 2 (products): flattened (productname, quantity) rows over bookings
whose LOWER(status) is confirmed; a failing quantity cast fails the query. -/
def queryProducts (bs : List Booking) : Except String (List ProductRow) :=
  collectRows
    ((bs.filter (fun b => confirmedStatuses.contains (sqlLower b.status))).foldr
      (fun b acc => guardedItems b ++ acc) [])

/-- JS `row.productname?.trim()` followed by the `if (!name)` guard: the key this
row is accumulated under, or none when the row is skipped. -/
def rowName (r : ProductRow) : Option String :=
  match r.productname with
  | none => none
  | some s => if jsTrim s = "" then none else some (jsTrim s)

/-- JS `acc[name] = (acc[name] || 0) + qty` on an insertion-ordered key/value list. -/
def bumpProduct : List (String × Int) → String → Int → List (String × Int)
  | [], n, q => [(n, q)]
  | (k, v) :: rest, n, q =>
    if k = n then (k, v + q) :: rest else (k, v) :: bumpProduct rest n q

def productStep (acc : List (String × Int)) (r : ProductRow) : List (String × Int) :=
  match rowName r with
  | none => acc
  | some n => bumpProduct acc n r.quantity

/-- The `products.rows.reduce` accumulation, keeping object-key insertion order. -/
def productSummary (rows : List ProductRow) : List (String × Int) :=
  rows.foldl productStep []

structure ProductOut where
  productname : String
  quantity : Int
deriving DecidableEq, Repr

/-- The comparator `(a, b) => b.quantity - a.quantity` as an ordering relation. -/
def prodGE (a b : ProductOut) : Prop := b.quantity ≤ a.quantity

instance : DecidableRel prodGE :=
  fun a b => inferInstanceAs (Decidable (b.quantity ≤ a.quantity))

instance : IsTotal ProductOut prodGE := ⟨fun a b => le_total b.quantity a.quantity⟩

instance : IsTrans ProductOut prodGE := ⟨fun _ _ _ h1 h2 => le_trans h2 h1⟩

/-- JS `Object.entries(productSummary).map(...).sort(...)`; `Array.prototype.sort`
is stable, modelled by a stable insertion sort. -/
def productData (rows : List ProductRow) : List ProductOut :=
  List.insertionSort prodGE ((productSummary rows).map (fun p => ⟨p.1, p.2⟩))

/-- A row of the cityBookings / cityQuotations GROUP BY queries. -/
structure CityRow where
  district : Option String
  count : Option Int
  total_amount : Option Rat
deriving DecidableEq, Repr

structure CityEntry where
  district : String
  booking_count : JNum
  quotation_count : JNum
  booking_amount : JNum
  quotation_amount : JNum
deriving DecidableEq, Repr

/-- JS `row.district || 'Unknown'` (falsiness: null and the empty string). -/
def districtKey (d : Option String) : String :=
  match d with
  | none => "Unknown"
  | some s => if s = "" then "Unknown" else s

def emptyEntry (d : String) : CityEntry := ⟨d, .num 0, .num 0, .num 0, .num 0⟩

/-- One row's `+=` updates on its district's entry; note there is no `|| 0`
default on either `parseInt(row.count)` or `parseFloat(row.total_amount)`. -/
def applyRow (type : String) (r : CityRow) (e : CityEntry) : CityEntry :=
  if type = "booking" then
    { e with booking_count := e.booking_count.add (parseIntJ r.count),
             booking_amount := e.booking_amount.add (parseFloatJ r.total_amount) }
  else
    { e with quotation_count := e.quotation_count.add (parseIntJ r.count),
             quotation_amount := e.quotation_amount.add (parseFloatJ r.total_amount) }

def cityInsert (type : String) (acc : List CityEntry) (r : CityRow) : List CityEntry :=
  match acc with
  | [] => [applyRow type r (emptyEntry (districtKey r.district))]
  | e :: rest =>
    if e.district = districtKey r.district then applyRow type r e :: rest
    else e :: cityInsert type rest r

/-- The merge engine `combineCityData`: one pass over `[...bookingRows, ...quotationRows]` into a
district-keyed insertion-ordered map, then `Object.values`. -/
def combineCityData (bookingRows quotationRows : List CityRow) (type : String) : List CityEntry :=
  (bookingRows ++ quotationRows).foldl (cityInsert type) []

/-- A row of the historical (monthly trend) query. -/
structure TrendRow where
  month : String
  volume : Option Int
  total_amount : Option Rat
  amount_paid : Option Rat
deriving DecidableEq, Repr

structure TrendOut where
  month : String
  volume : Int
  total_amount : Rat
  amount_paid : Rat
  unpaid_amount : Rat
deriving DecidableEq, Repr

/-- One month's trend point: paid is capped at total, unpaid floored at 0. -/
def trendPoint (r : TrendRow) : TrendOut :=
  ⟨r.month, parseIntD r.volume, parseFloatD r.total_amount,
   min (parseFloatD r.amount_paid) (parseFloatD r.total_amount),
   max 0 (parseFloatD r.total_amount - parseFloatD r.amount_paid)⟩

def trendDataArray (rows : List TrendRow) : List TrendOut := rows.map trendPoint

/-- The single row of the profitability sum query. -/
structure ProfitRow where
  total_amount : Option Rat
  amount_paid : Option Rat
deriving DecidableEq, Repr

structure ProfitOut where
  total_amount : Rat
  amount_paid : Rat
  unpaid_amount : Rat
deriving DecidableEq, Repr

/-- JS `profitability.rows[0] || (total_amount 0, amount_paid 0 default)` and the derived
record: unlike the trend points, `amount_paid` is not capped here — only
`unpaid_amount` is floored at 0. -/
def profitData (rows : List ProfitRow) : ProfitOut :=
  ⟨parseFloatD (rows.headD ⟨some 0, some 0⟩).total_amount,
   parseFloatD (rows.headD ⟨some 0, some 0⟩).amount_paid,
   max 0 (parseFloatD (rows.headD ⟨some 0, some 0⟩).total_amount
          - parseFloatD (rows.headD ⟨some 0, some 0⟩).amount_paid)⟩

/-- A row of the conversion query (status already lower-cased by the SQL
`SELECT LOWER(status) ... GROUP BY LOWER(status)`; NULL stays NULL). -/
structure QSRow where
  status : Option String
  count : Option Int
  total_amount : Option Rat
deriving DecidableEq, Repr

structure Bucket where
  count : JNum
  total_amount : Rat
deriving DecidableEq, Repr

structure QuotSummary where
  pending : Bucket
  booked : Bucket
  canceled : Bucket
deriving DecidableEq, Repr

/-- The `+=` pair on a bucket: the count has no default, the amount has `|| 0`. -/
def bucketAdd (b : Bucket) (r : QSRow) : Bucket :=
  ⟨b.count.add (parseIntJ r.count), b.total_amount + parseFloatD r.total_amount⟩

/-- JS `row.status || 'canceled'` (falsiness: null and the empty string). -/
def effStatus (s : Option String) : String :=
  match s with
  | none => "canceled"
  | some t => if t = "" then "canceled" else t

def quotStep (acc : QuotSummary) (r : QSRow) : QuotSummary :=
  if effStatus r.status = "pending" then { acc with pending := bucketAdd acc.pending r }
  else if effStatus r.status = "booked" then { acc with booked := bucketAdd acc.booked r }
  else if effStatus r.status = "canceled" then { acc with canceled := bucketAdd acc.canceled r }
  else acc

def zeroBucket : Bucket := ⟨.num 0, 0⟩

/-- The conversion-rate accumulation over the fixed three buckets. -/
def quotationSummary (rows : List QSRow) : QuotSummary :=
  rows.foldl quotStep ⟨zeroBucket, zeroBucket, zeroBucket⟩

/-- A row of the customerTypes query. -/
structure CustRow where
  customer_type : Option String
  count : Option Int
  total_amount : Option Rat
deriving DecidableEq, Repr

structure CustOut where
  customer_type : String
  count : JNum
  total_amount : Rat
deriving DecidableEq, Repr

def customerTypeData (rows : List CustRow) : List CustOut :=
  rows.map (fun r =>
    ⟨match r.customer_type with
      | none => "Unknown"
      | some s => if s = "" then "Unknown" else s,
     parseIntJ r.count, parseFloatD r.total_amount⟩)

/-- A row of the cancellations union query (total already COALESCEd to 0). -/
structure CancelRow where
  type : String
  order_id : Int
  total : Rat
  created_at : Int
deriving DecidableEq, Repr

/-- SQL `ORDER BY created_at DESC` as an ordering relation. -/
def cancelGE (a b : CancelRow) : Prop := b.created_at ≤ a.created_at

instance : DecidableRel cancelGE :=
  fun a b => inferInstanceAs (Decidable (b.created_at ≤ a.created_at))

instance : IsTotal CancelRow cancelGE := ⟨fun a b => le_total b.created_at a.created_at⟩

instance : IsTrans CancelRow cancelGE := ⟨fun _ _ _ h1 h2 => le_trans h2 h1⟩

/-- Query 9 (cancellations): canceled bookings and quotations — both via
LOWER(status) = 'canceled' — tagged with their source, total COALESCEd to 0,
merged and ordered by created_at descending. -/
def cancellationsQuery (st : Store) : List CancelRow :=
  List.insertionSort cancelGE
    ((st.bookings.filter (fun b => sqlLower b.status == "canceled")).map
        (fun b => ⟨"booking", b.order_id, b.total.getD 0, b.created_at⟩)
     ++ (st.fwcquotations.filter (fun q => sqlLower q.status == "canceled")).map
        (fun q => ⟨"quotation", q.quotation_id, q.total.getD 0, q.created_at⟩))

structure CancelOut where
  type : String
  order_id : Int
  total : Rat
  created_at : Int
deriving DecidableEq, Repr

def cancellationData (rows : List CancelRow) : List CancelOut :=
  rows.map (fun r => ⟨r.type, r.order_id, r.total, r.created_at⟩)

/-- The assembled seven-facet report body. -/
structure Report where
  products : List ProductOut
  cities : List CityEntry
  trends : List TrendOut
  profitability : ProfitOut
  quotations : QuotSummary
  customer_types : List CustOut
  cancellations : List CancelOut
deriving DecidableEq, Repr

structure ErrBody where
  message : String
  error : String
deriving DecidableEq, Repr

inductive RespBody where
  | ok (r : Report) : RespBody
  | fail (e : ErrBody) : RespBody
deriving DecidableEq, Repr

structure Response where
  status : Nat
  body : RespBody
deriving DecidableEq, Repr

/-- The try/catch body of `getSalesAnalysis`, abstracted over the outcomes of
the nine awaited queries in source order: the first rejection reaches the catch
block and produces the single 500 response; otherwise the seven facets are
assembled — note `combineCityData` is invoked with the literal `'both'`. -/
def getSalesAnalysisE
    (q1 : Except String (List (String × Nat)))
    (q2 : Except String (List ProductRow))
    (q3 : Except String (List CityRow))
    (q4 : Except String (List CityRow))
    (q5 : Except String (List TrendRow))
    (q6 : Except String (List ProfitRow))
    (q7 : Except String (List QSRow))
    (q8 : Except String (List CustRow))
    (q9 : Except String (List CancelRow)) : Response :=
  match q1 with
  | .error m => ⟨500, .fail ⟨"Failed to fetch sales analysis", m⟩⟩
  | .ok _ =>
  match q2 with
  | .error m => ⟨500, .fail ⟨"Failed to fetch sales analysis", m⟩⟩
  | .ok r2 =>
  match q3 with
  | .error m => ⟨500, .fail ⟨"Failed to fetch sales analysis", m⟩⟩
  | .ok r3 =>
  match q4 with
  | .error m => ⟨500, .fail ⟨"Failed to fetch sales analysis", m⟩⟩
  | .ok r4 =>
  match q5 with
  | .error m => ⟨500, .fail ⟨"Failed to fetch sales analysis", m⟩⟩
  | .ok r5 =>
  match q6 with
  | .error m => ⟨500, .fail ⟨"Failed to fetch sales analysis", m⟩⟩
  | .ok r6 =>
  match q7 with
  | .error m => ⟨500, .fail ⟨"Failed to fetch sales analysis", m⟩⟩
  | .ok r7 =>
  match q8 with
  | .error m => ⟨500, .fail ⟨"Failed to fetch sales analysis", m⟩⟩
  | .ok r8 =>
  match q9 with
  | .error m => ⟨500, .fail ⟨"Failed to fetch sales analysis", m⟩⟩
  | .ok r9 =>
    ⟨200, .ok ⟨productData r2, combineCityData r3 r4 "both", trendDataArray r5,
               profitData r6, quotationSummary r7, customerTypeData r8, cancellationData r9⟩⟩

/-- Sum of the quantities of the rows accumulated under a given product key. -/
def prodSum : List ProductRow → String → Int
  | [], _ => 0
  | r :: rs, n => (if rowName r = some n then r.quantity else 0) + prodSum rs n

/-- Whether some row is accumulated under the given product key. -/
def appearsName : List ProductRow → String → Bool
  | [], _ => false
  | r :: rs, n => (rowName r == some n) || appearsName rs n

/-- NaN-propagating sum of `parseInt(count)` over city rows. -/
def sumCounts : List CityRow → JNum
  | [] => .num 0
  | r :: rs => (parseIntJ r.count).add (sumCounts rs)

/-- NaN-propagating sum of `parseFloat(total_amount)` over city rows. -/
def sumAmounts : List CityRow → JNum
  | [] => .num 0
  | r :: rs => (parseFloatJ r.total_amount).add (sumAmounts rs)

/-- The bucket a list of conversion rows sums to. -/
def bucketSum : List QSRow → Bucket
  | [] => zeroBucket
  | r :: rs => ⟨(parseIntJ r.count).add (bucketSum rs).count,
                parseFloatD r.total_amount + (bucketSum rs).total_amount⟩

/-! ### Helper lemmas about the city merge -/

theorem JNum.add_assoc (a b c : JNum) : (a.add b).add c = a.add (b.add c) := by
  cases a <;> cases b <;> cases c <;> simp [JNum.add, Rat.add_assoc]

theorem JNum.add_num_zero (a : JNum) : a.add (.num 0) = a := by
  cases a <;> simp [JNum.add]

theorem JNum.num_zero_add (a : JNum) : (JNum.num 0).add a = a := by
  cases a <;> simp [JNum.add]

/-- The district names of a city-entry list, in order. -/
def districtsOf (l : List CityEntry) : List String := l.map (·.district)

theorem applyRow_district (t : String) (r : CityRow) (e : CityEntry) :
    (applyRow t r e).district = e.district := by
  unfold applyRow; split <;> rfl

theorem applyRow_both_bcount (r : CityRow) (e : CityEntry) :
    (applyRow "both" r e).booking_count = e.booking_count := by
  unfold applyRow; rw [if_neg (by decide)]

theorem applyRow_both_bamount (r : CityRow) (e : CityEntry) :
    (applyRow "both" r e).booking_amount = e.booking_amount := by
  unfold applyRow; rw [if_neg (by decide)]

theorem applyRow_both_qcount (r : CityRow) (e : CityEntry) :
    (applyRow "both" r e).quotation_count = e.quotation_count.add (parseIntJ r.count) := by
  unfold applyRow; rw [if_neg (by decide)]

theorem applyRow_both_qamount (r : CityRow) (e : CityEntry) :
    (applyRow "both" r e).quotation_amount = e.quotation_amount.add (parseFloatJ r.total_amount) := by
  unfold applyRow; rw [if_neg (by decide)]

theorem districts_cityInsert (t : String) (r : CityRow) (acc : List CityEntry) :
    districtsOf (cityInsert t acc r) =
      if districtKey r.district ∈ districtsOf acc then districtsOf acc
      else districtsOf acc ++ [districtKey r.district] := by
  induction acc with
  | nil => simp [cityInsert, districtsOf, applyRow_district, emptyEntry]
  | cons e rest ih =>
    by_cases h : e.district = districtKey r.district
    · simp [cityInsert, h, districtsOf, applyRow_district]
    · simp only [cityInsert, if_neg h, districtsOf, List.map_cons] at ih ⊢
      rw [ih]
      by_cases hm : districtKey r.district ∈ List.map (fun e => e.district) rest
      · rw [if_pos hm, if_pos (List.mem_cons_of_mem _ hm)]
      · rw [if_neg hm, if_neg ?hn, List.cons_append]
        case hn =>
          intro hc
          rcases List.mem_cons.mp hc with hc | hc
          · exact h hc.symm
          · exact hm hc

theorem mem_districts_fold (t : String) (rows : List CityRow) :
    ∀ (acc : List CityEntry) (d : String),
      (d ∈ districtsOf (rows.foldl (cityInsert t) acc) ↔
        d ∈ districtsOf acc ∨ d ∈ rows.map (fun r => districtKey r.district)) := by
  induction rows with
  | nil => intro acc d; simp
  | cons r rs ih =>
    intro acc d
    rw [List.foldl_cons, ih]
    rw [districts_cityInsert]
    by_cases hm : districtKey r.district ∈ districtsOf acc
    · rw [if_pos hm]
      constructor
      · rintro (h | h)
        · exact Or.inl h
        · exact Or.inr (List.mem_cons_of_mem _ h)
      · rintro (h | h)
        · exact Or.inl h
        · rcases List.mem_cons.mp h with h | h
          · exact Or.inl (h ▸ hm)
          · exact Or.inr h
    · rw [if_neg hm]
      constructor
      · rintro (h | h)
        · rcases List.mem_append.mp h with h | h
          · exact Or.inl h
          · simp only [List.mem_singleton] at h
            exact Or.inr (by simp [h])
        · exact Or.inr (List.mem_cons_of_mem _ h)
      · rintro (h | h)
        · exact Or.inl (List.mem_append.mpr (Or.inl h))
        · simp only [List.map_cons, List.mem_cons] at h
          rcases h with h | h
          · exact Or.inl (List.mem_append.mpr (Or.inr (by simp [h])))
          · exact Or.inr (by simp [h])

theorem nodup_districts_fold (t : String) (rows : List CityRow) :
    ∀ acc : List CityEntry, (districtsOf acc).Nodup →
      (districtsOf (rows.foldl (cityInsert t) acc)).Nodup := by
  induction rows with
  | nil => intro acc h; simpa
  | cons r rs ih =>
    intro acc h
    rw [List.foldl_cons]
    apply ih
    rw [districts_cityInsert]
    split
    · exact h
    · rename_i hm
      rw [← List.concat_eq_append]
      exact h.concat hm

/-- First-match lookup by district, mirroring object-key access. -/
def getEntry (d : String) : List CityEntry → Option CityEntry
  | [] => none
  | e :: rest => if e.district = d then some e else getEntry d rest

theorem getEntry_cityInsert_eq (t : String) (r : CityRow) (acc : List CityEntry) :
    getEntry (districtKey r.district) (cityInsert t acc r) =
      some (applyRow t r ((getEntry (districtKey r.district) acc).getD
        (emptyEntry (districtKey r.district)))) := by
  induction acc with
  | nil => simp [cityInsert, getEntry, applyRow_district, emptyEntry]
  | cons e rest ih =>
    by_cases h : e.district = districtKey r.district
    · simp [cityInsert, h, getEntry, applyRow_district]
    · rw [cityInsert, if_neg h]
      simp only [getEntry]
      rw [if_neg h, if_neg h, ih]

theorem getEntry_cityInsert_ne (t : String) (r : CityRow) (acc : List CityEntry)
    (d : String) (h : districtKey r.district ≠ d) :
    getEntry d (cityInsert t acc r) = getEntry d acc := by
  induction acc with
  | nil => simp [cityInsert, getEntry, applyRow_district, emptyEntry, h]
  | cons e rest ih =>
    by_cases he : e.district = districtKey r.district
    · rw [cityInsert, if_pos he, getEntry, getEntry,
        applyRow_district, if_neg (he ▸ h), if_neg (he ▸ h)]
    · rw [cityInsert, if_neg he, getEntry, getEntry]
      by_cases hd : e.district = d
      · rw [if_pos hd, if_pos hd]
      · rw [if_neg hd, if_neg hd, ih]

/-- Successive `applyRow` updates of one entry, as the accumulation over a row list. -/
def cityAccum (t : String) (e : CityEntry) : List CityRow → CityEntry
  | [] => e
  | r :: rs => cityAccum t (applyRow t r e) rs

theorem getEntry_fold_some (t : String) (rows : List CityRow) :
    ∀ (acc : List CityEntry) (e : CityEntry) (d : String), getEntry d acc = some e →
      getEntry d (rows.foldl (cityInsert t) acc) =
        some (cityAccum t e (rows.filter (fun r => districtKey r.district == d))) := by
  induction rows with
  | nil => intro acc e d h; simpa [cityAccum]
  | cons r rs ih =>
    intro acc e d h
    rw [List.foldl_cons]
    by_cases hd : districtKey r.district = d
    · have h2 : getEntry d (cityInsert t acc r) = some (applyRow t r e) := by
        rw [← hd, getEntry_cityInsert_eq, hd, h]
        rfl
      rw [ih _ _ _ h2, List.filter_cons, if_pos (by simp [hd]), cityAccum]
    · have h2 : getEntry d (cityInsert t acc r) = some e := by
        rw [getEntry_cityInsert_ne t r acc d hd, h]
      rw [ih _ _ _ h2, List.filter_cons, if_neg (by simp [hd])]

theorem getEntry_fold_none (t : String) (rows : List CityRow) :
    ∀ (acc : List CityEntry) (d : String), getEntry d acc = none →
      getEntry d (rows.foldl (cityInsert t) acc) =
        if (rows.filter (fun r => districtKey r.district == d)).isEmpty then none
        else some (cityAccum t (emptyEntry d)
          (rows.filter (fun r => districtKey r.district == d))) := by
  induction rows with
  | nil => intro acc d h; simpa
  | cons r rs ih =>
    intro acc d h
    rw [List.foldl_cons]
    by_cases hd : districtKey r.district = d
    · have h2 : getEntry d (cityInsert t acc r) = some (applyRow t r (emptyEntry d)) := by
        rw [← hd, getEntry_cityInsert_eq, hd, h]
        rfl
      have hc : (districtKey r.district == d) = true := by simp [hd]
      rw [getEntry_fold_some t rs _ _ _ h2]
      simp [List.filter_cons, hc, cityAccum]
    · have h2 : getEntry d (cityInsert t acc r) = none := by
        rw [getEntry_cityInsert_ne t r acc d hd, h]
      have hc : (districtKey r.district == d) = false := by simp [hd]
      rw [ih _ _ h2]
      simp [List.filter_cons, hc]

theorem getEntry_of_mem : ∀ (l : List CityEntry) (e : CityEntry),
    e ∈ l → (districtsOf l).Nodup → getEntry e.district l = some e := by
  intro l
  induction l with
  | nil => intro e h; cases h
  | cons a rest ih =>
    intro e h hn
    have hn' := List.nodup_cons.mp
      (show (a.district :: List.map (fun x => x.district) rest).Nodup from hn)
    rcases List.mem_cons.mp h with h | h
    · simp only [getEntry]
      rw [if_pos (by rw [h]), h]
    · have hd : a.district ≠ e.district := by
        intro heq
        apply hn'.1
        rw [heq]
        exact List.mem_map_of_mem _ h
      simp only [getEntry]
      rw [if_neg hd]
      exact ih e h hn'.2

theorem cityAccum_both_bcount (rows : List CityRow) :
    ∀ e : CityEntry, (cityAccum "both" e rows).booking_count = e.booking_count := by
  induction rows with
  | nil => intro e; rfl
  | cons r rs ih => intro e; rw [cityAccum, ih, applyRow_both_bcount]

theorem cityAccum_both_bamount (rows : List CityRow) :
    ∀ e : CityEntry, (cityAccum "both" e rows).booking_amount = e.booking_amount := by
  induction rows with
  | nil => intro e; rfl
  | cons r rs ih => intro e; rw [cityAccum, ih, applyRow_both_bamount]

theorem cityAccum_both_qcount (rows : List CityRow) :
    ∀ e : CityEntry, (cityAccum "both" e rows).quotation_count =
      e.quotation_count.add (sumCounts rows) := by
  induction rows with
  | nil => intro e; rw [cityAccum, sumCounts, JNum.add_num_zero]
  | cons r rs ih =>
    intro e
    rw [cityAccum, ih, applyRow_both_qcount, sumCounts, ← JNum.add_assoc]

theorem cityAccum_both_qamount (rows : List CityRow) :
    ∀ e : CityEntry, (cityAccum "both" e rows).quotation_amount =
      e.quotation_amount.add (sumAmounts rows) := by
  induction rows with
  | nil => intro e; rw [cityAccum, sumAmounts, JNum.add_num_zero]
  | cons r rs ih =>
    intro e
    rw [cityAccum, ih, applyRow_both_qamount, sumAmounts, ← JNum.add_assoc]

theorem combine_both_entry (b q : List CityRow) (e : CityEntry)
    (h : e ∈ combineCityData b q "both") :
    e.booking_count = .num 0 ∧ e.booking_amount = .num 0 ∧
    e.quotation_count =
      sumCounts ((b ++ q).filter (fun r => districtKey r.district == e.district)) ∧
    e.quotation_amount =
      sumAmounts ((b ++ q).filter (fun r => districtKey r.district == e.district)) := by
  have hn : (districtsOf (combineCityData b q "both")).Nodup :=
    nodup_districts_fold "both" (b ++ q) [] (by simp [districtsOf])
  have hg := getEntry_of_mem _ _ h hn
  rw [combineCityData, getEntry_fold_none "both" (b ++ q) [] e.district rfl] at hg
  by_cases hemp : ((b ++ q).filter (fun r => districtKey r.district == e.district)).isEmpty
  · rw [if_pos hemp] at hg; cases hg
  · rw [if_neg hemp] at hg
    have he : e = cityAccum "both" (emptyEntry e.district)
        ((b ++ q).filter (fun r => districtKey r.district == e.district)) :=
      (Option.some.inj hg).symm
    refine ⟨?_, ?_, ?_, ?_⟩
    · conv_lhs => rw [he]
      rw [cityAccum_both_bcount]
      rfl
    · conv_lhs => rw [he]
      rw [cityAccum_both_bamount]
      rfl
    · conv_lhs => rw [he]
      rw [cityAccum_both_qcount,
        show (emptyEntry e.district).quotation_count = JNum.num 0 from rfl, JNum.num_zero_add]
    · conv_lhs => rw [he]
      rw [cityAccum_both_qamount,
        show (emptyEntry e.district).quotation_amount = JNum.num 0 from rfl, JNum.num_zero_add]

/-! ### Helper lemmas about the conversion buckets -/

/-- Componentwise bucket addition, used to state the fold invariant. -/
def addBucket (b c : Bucket) : Bucket := ⟨b.count.add c.count, b.total_amount + c.total_amount⟩

theorem quotStep_fold (rows : List QSRow) : ∀ acc : QuotSummary,
    rows.foldl quotStep acc =
      ⟨addBucket acc.pending (bucketSum (rows.filter (fun r => effStatus r.status == "pending"))),
       addBucket acc.booked (bucketSum (rows.filter (fun r => effStatus r.status == "booked"))),
       addBucket acc.canceled
         (bucketSum (rows.filter (fun r => effStatus r.status == "canceled")))⟩ := by
  induction rows with
  | nil =>
    intro acc
    simp [bucketSum, addBucket, zeroBucket, JNum.add_num_zero]
  | cons r rs ih =>
    intro acc
    rw [List.foldl_cons, ih]
    by_cases hp : effStatus r.status = "pending"
    · simp [quotStep, hp, List.filter_cons, addBucket, bucketAdd, bucketSum,
        JNum.add_assoc, add_assoc]
    · by_cases hb : effStatus r.status = "booked"
      · simp [quotStep, hp, hb, List.filter_cons, addBucket, bucketAdd, bucketSum,
          JNum.add_assoc, add_assoc]
      · by_cases hc : effStatus r.status = "canceled"
        · simp [quotStep, hp, hb, hc, List.filter_cons, addBucket, bucketAdd, bucketSum,
            JNum.add_assoc, add_assoc]
        · simp [quotStep, hp, hb, hc, List.filter_cons]

theorem effStatus_eq_of_ne (s : Option String) (v : String)
    (hv : v ≠ "canceled") (hv2 : v ≠ "") :
    (effStatus s == v) = (s == some v) := by
  match s with
  | none => simp [effStatus, Ne.symm hv]
  | some t =>
    simp only [effStatus]
    by_cases ht : t = ""
    · simp [ht, Ne.symm hv, Ne.symm hv2]
    · simp [ht]

/-! ### Claim theorems: regional merge and numeric defaulting -/

/-- Claim C1 (code evaluated at the spec scenario): given the booking-sourced
city row (district null, count 1, total 50) and the quotation-sourced row
(district X, count 1, total 30), `combineCityData` — invoked with the literal
`'both'` as in the source — credits both rows to the quotation counters and
leaves both booking counters at 0, instead of crediting the booking-sourced
row to booking_count/booking_amount as the claim states. -/
theorem c1_scenario_both_rows_credited_to_quotation :
    combineCityData [⟨none, some 1, some 50⟩] [⟨some "X", some 1, some 30⟩] "both" =
      [⟨"Unknown", .num 0, .num 1, .num 0, .num 50⟩,
       ⟨"X", .num 0, .num 1, .num 0, .num 30⟩] := by
  simp [combineCityData, cityInsert, applyRow, districtKey, emptyEntry,
    parseIntJ, parseFloatJ, JNum.add]

/-- Claim C8: the cities output has exactly one entry per district in the
union of the (defaulted) districts of the booking-sourced and the
quotation-sourced rows: its district list has no duplicates, and it contains a
district iff some input row from either source maps to it. -/
theorem c8_cities_district_union (b q : List CityRow) (t : String) :
    (districtsOf (combineCityData b q t)).Nodup ∧
    (∀ d : String, d ∈ districtsOf (combineCityData b q t) ↔
      d ∈ (b ++ q).map (fun r => districtKey r.district)) := by
  constructor
  · exact nodup_districts_fold t (b ++ q) [] (by simp [districtsOf])
  · intro d
    rw [combineCityData, mem_districts_fold]
    simp [districtsOf]

/-- Claim C10: in every successful response, every cities entry has
booking_count = 0 and booking_amount = 0, and the counts/amounts of the rows
of both the confirmed-order query and the pipeline query are accumulated into
quotation_count/quotation_amount, because `combineCityData` is called with
type `'both'`, which never equals `'booking'`. -/
theorem c10_success_cities_only_quotation_slots
    (q1 : Except String (List (String × Nat))) (q2 : Except String (List ProductRow))
    (q3 q4 : Except String (List CityRow)) (q5 : Except String (List TrendRow))
    (q6 : Except String (List ProfitRow)) (q7 : Except String (List QSRow))
    (q8 : Except String (List CustRow)) (q9 : Except String (List CancelRow))
    (rep : Report) (r3 r4 : List CityRow)
    (h : getSalesAnalysisE q1 q2 q3 q4 q5 q6 q7 q8 q9 = ⟨200, .ok rep⟩)
    (h3 : q3 = .ok r3) (h4 : q4 = .ok r4) :
    ∀ e ∈ rep.cities,
      e.booking_count = JNum.num 0 ∧ e.booking_amount = JNum.num 0 ∧
      e.quotation_count =
        sumCounts ((r3 ++ r4).filter (fun r => districtKey r.district == e.district)) ∧
      e.quotation_amount =
        sumAmounts ((r3 ++ r4).filter (fun r => districtKey r.district == e.district)) := by
  subst h3
  subst h4
  rcases q1 with m | r1
  · simp [getSalesAnalysisE] at h
  rcases q2 with m | r2
  · simp [getSalesAnalysisE] at h
  rcases q5 with m | r5
  · simp [getSalesAnalysisE] at h
  rcases q6 with m | r6
  · simp [getSalesAnalysisE] at h
  rcases q7 with m | r7
  · simp [getSalesAnalysisE] at h
  rcases q8 with m | r8
  · simp [getSalesAnalysisE] at h
  rcases q9 with m | r9
  · simp [getSalesAnalysisE] at h
  simp only [getSalesAnalysisE, Response.mk.injEq, RespBody.ok.injEq] at h
  obtain ⟨-, h⟩ := h
  intro e he
  apply combine_both_entry r3 r4 e
  rw [show combineCityData r3 r4 "both" = rep.cities from by rw [← h]]
  exact he

/-- Witness for C10: a concrete successful response whose single cities entry
is checked against the theorem. -/
theorem c10_success_cities_only_quotation_slots_witness :
    (⟨"X", .num 0, .num 1, .num 0, .num 30⟩ : CityEntry).booking_count = JNum.num 0 ∧
    (⟨"X", .num 0, .num 1, .num 0, .num 30⟩ : CityEntry).booking_amount = JNum.num 0 ∧
    (⟨"X", .num 0, .num 1, .num 0, .num 30⟩ : CityEntry).quotation_count =
      sumCounts ((([] : List CityRow) ++ ([⟨some "X", some 1, some 30⟩] : List CityRow)).filter
        (fun r => districtKey r.district ==
          (⟨"X", .num 0, .num 1, .num 0, .num 30⟩ : CityEntry).district)) ∧
    (⟨"X", .num 0, .num 1, .num 0, .num 30⟩ : CityEntry).quotation_amount =
      sumAmounts ((([] : List CityRow) ++ ([⟨some "X", some 1, some 30⟩] : List CityRow)).filter
        (fun r => districtKey r.district ==
          (⟨"X", .num 0, .num 1, .num 0, .num 30⟩ : CityEntry).district)) := by
  have h : getSalesAnalysisE (.ok []) (.ok []) (.ok []) (.ok [⟨some "X", some 1, some 30⟩])
      (.ok []) (.ok []) (.ok []) (.ok []) (.ok []) =
      ⟨200, .ok ⟨[], [⟨"X", .num 0, .num 1, .num 0, .num 30⟩], [], ⟨0, 0, 0⟩,
        ⟨zeroBucket, zeroBucket, zeroBucket⟩, [], []⟩⟩ := by
    simp [getSalesAnalysisE, productData, productSummary, combineCityData, cityInsert,
      applyRow, districtKey, emptyEntry, parseIntJ, parseFloatJ, JNum.add, trendDataArray,
      profitData, parseFloatD, parseFloatJ, jOrZero, quotationSummary, customerTypeData,
      cancellationData, zeroBucket, List.insertionSort]
  exact c10_success_cities_only_quotation_slots _ _ _ _ _ _ _ _ _ _ _ _ h rfl rfl
    ⟨"X", .num 0, .num 1, .num 0, .num 30⟩ (by simp)

/-- Claim C2 (amended): every trend point satisfies paid ≤ total and
unpaid ≥ 0; the profitability record satisfies unpaid ≥ 0, but its amount_paid
is the raw zero-defaulted sum, not clamped to the total. -/
theorem c2_trend_clamped_profit_unpaid_nonneg
    (trows : List TrendRow) (prows : List ProfitRow) :
    (∀ e ∈ trendDataArray trows, e.amount_paid ≤ e.total_amount ∧ 0 ≤ e.unpaid_amount) ∧
    0 ≤ (profitData prows).unpaid_amount ∧
    (profitData prows).amount_paid =
      parseFloatD (prows.headD ⟨some 0, some 0⟩).amount_paid := by
  refine ⟨?_, le_max_left _ _, rfl⟩
  intro e he
  rcases List.mem_map.mp he with ⟨r, hr, hre⟩
  rw [← hre]
  exact ⟨min_le_right _ _, le_max_left _ _⟩

/-- Witness for C2 at a month row with paid 150 exceeding total 100. -/
theorem c2_trend_clamped_profit_unpaid_nonneg_witness :
    ((trendPoint ⟨"2024-01", some 1, some 100, some 150⟩).amount_paid ≤
        (trendPoint ⟨"2024-01", some 1, some 100, some 150⟩).total_amount ∧
      0 ≤ (trendPoint ⟨"2024-01", some 1, some 100, some 150⟩).unpaid_amount) ∧
    0 ≤ (profitData [⟨some 100, some 150⟩]).unpaid_amount := by
  have h := c2_trend_clamped_profit_unpaid_nonneg
    [⟨"2024-01", some 1, some 100, some 150⟩] [⟨some 100, some 150⟩]
  exact ⟨h.1 _ (by simp [trendDataArray]), h.2.1⟩

/-- Claim C2 counterexample: for the profitability row summed from one
confirmed order with total 100 and paid 150, the facet is {100, 150, 0} —
amount_paid exceeds total_amount instead of being clamped to 100. -/
theorem c2_counterexample :
    profitData [⟨some 100, some 150⟩] = ⟨100, 150, 0⟩ ∧
    ¬ (profitData [⟨some 100, some 150⟩]).amount_paid ≤
        (profitData [⟨some 100, some 150⟩]).total_amount := by
  constructor
  · simp [profitData, parseFloatD, parseFloatJ, jOrZero]
    norm_num
  · simp only [profitData, parseFloatD, parseFloatJ, jOrZero, List.headD, not_le]
    norm_num

/-- Claim C5 (amended): each conversion bucket equals the sum over the rows
whose effective status — `row.status || 'canceled'` — names that bucket; a row
with a null (or empty) status is therefore added to the canceled bucket, while
other unrecognized statuses are added to none of the three. -/
theorem c5_bucket_accumulation (rows : List QSRow) :
    (quotationSummary rows).pending =
      bucketSum (rows.filter (fun r => r.status == some "pending")) ∧
    (quotationSummary rows).booked =
      bucketSum (rows.filter (fun r => r.status == some "booked")) ∧
    (quotationSummary rows).canceled =
      bucketSum (rows.filter (fun r => effStatus r.status == "canceled")) := by
  have h := quotStep_fold rows ⟨zeroBucket, zeroBucket, zeroBucket⟩
  rw [quotationSummary, h]
  have hp : rows.filter (fun r => effStatus r.status == "pending") =
      rows.filter (fun r => r.status == some "pending") :=
    List.filter_congr (fun r _ => effStatus_eq_of_ne r.status "pending"
      (by decide) (by decide))
  have hb : rows.filter (fun r => effStatus r.status == "booked") =
      rows.filter (fun r => r.status == some "booked") :=
    List.filter_congr (fun r _ => effStatus_eq_of_ne r.status "booked"
      (by decide) (by decide))
  rw [hp, hb]
  refine ⟨?_, ?_, ?_⟩ <;>
    simp [addBucket, zeroBucket, JNum.num_zero_add]

/-- Claim C5 counterexample: a status-grouped row with a null status and
count 1 is accumulated into the canceled bucket, not dropped from all three. -/
theorem c5_counterexample :
    quotationSummary [⟨none, some 1, some 5⟩] = ⟨zeroBucket, zeroBucket, ⟨.num 1, 5⟩⟩ ∧
    (quotationSummary [⟨none, some 1, some 5⟩]).canceled ≠ zeroBucket := by
  have h : quotationSummary [⟨none, some 1, some 5⟩] =
      ⟨zeroBucket, zeroBucket, ⟨.num 1, 5⟩⟩ := by
    simp [quotationSummary, quotStep, effStatus, bucketAdd, zeroBucket,
      parseIntJ, parseFloatD, parseFloatJ, jOrZero, JNum.add]
  refine ⟨h, ?_⟩
  rw [h]
  simp [zeroBucket]

/-- Claim C6 (amended): the zero-defaulting normalizations are applied in the
trend, profitability, product-quantity and cancellation paths, but not in the
cities merge, whose `parseInt`/`parseFloat` results are added with no default:
a null count/amount row there yields NaN instead of contributing 0. -/
theorem c6_zero_default_extent :
    (∀ m : String, trendPoint ⟨m, none, none, none⟩ = ⟨m, 0, 0, 0, 0⟩) ∧
    profitData [⟨none, none⟩] = ⟨0, 0, 0⟩ ∧
    profitData [] = ⟨0, 0, 0⟩ ∧
    castQuantity [("productname", .str "A"), ("quantity", .null)] = .ok 0 ∧
    cancellationData (cancellationsQuery
        ⟨[⟨1, none, "canceled", none, none, none, 5, none⟩], []⟩) =
      [⟨"booking", 1, 0, 5⟩] ∧
    combineCityData [] [⟨some "X", none, none⟩] "both" =
      [⟨"X", .num 0, .nan, .num 0, .nan⟩] := by
  refine ⟨?_, ?_, ?_, ?_, ?_, ?_⟩
  · intro m
    simp [trendPoint, parseFloatD, parseFloatJ, jOrZero, parseIntD]
  · simp [profitData, parseFloatD, parseFloatJ, jOrZero]
  · simp [profitData, parseFloatD, parseFloatJ, jOrZero]
  · simp [castQuantity, textOf, List.lookup]
  · simp [cancellationData, cancellationsQuery, sqlLower, List.insertionSort]
  · simp [combineCityData, cityInsert, applyRow, districtKey, emptyEntry,
      parseIntJ, parseFloatJ, JNum.add]

/-! ### Helper lemmas about the product accumulation -/

/-- First-match value lookup in the product accumulation list. -/
def getVal (n : String) : List (String × Int) → Option Int
  | [] => none
  | p :: rest => if p.1 = n then some p.2 else getVal n rest

/-- The keys of the product accumulation list, in insertion order. -/
def keysOf (l : List (String × Int)) : List String := l.map (fun p => p.1)

theorem getVal_bump_eq (acc : List (String × Int)) (n : String) (q : Int) :
    getVal n (bumpProduct acc n q) = some ((getVal n acc).getD 0 + q) := by
  induction acc with
  | nil => simp [bumpProduct, getVal]
  | cons p rest ih =>
    by_cases h : p.1 = n
    · rw [show (p : String × Int) = (p.1, p.2) from rfl, bumpProduct]
      rw [if_pos h]
      simp [getVal, h]
    · rw [show (p : String × Int) = (p.1, p.2) from rfl, bumpProduct]
      rw [if_neg h]
      simp [getVal, h, ih]

theorem getVal_bump_ne (acc : List (String × Int)) (m : String) (q : Int)
    (n : String) (h : m ≠ n) : getVal n (bumpProduct acc m q) = getVal n acc := by
  induction acc with
  | nil => simp [bumpProduct, getVal, h]
  | cons p rest ih =>
    by_cases hp : p.1 = m
    · rw [show (p : String × Int) = (p.1, p.2) from rfl, bumpProduct]
      rw [if_pos hp]
      simp [getVal, hp, h]
    · rw [show (p : String × Int) = (p.1, p.2) from rfl, bumpProduct]
      rw [if_neg hp]
      by_cases hn : p.1 = n
      · simp [getVal, hn]
      · simp [getVal, hn, ih]

theorem keys_bump (acc : List (String × Int)) (n : String) (q : Int) :
    keysOf (bumpProduct acc n q) =
      if n ∈ keysOf acc then keysOf acc else keysOf acc ++ [n] := by
  induction acc with
  | nil => simp [bumpProduct, keysOf]
  | cons p rest ih =>
    by_cases h : p.1 = n
    · rw [show (p : String × Int) = (p.1, p.2) from rfl, bumpProduct]
      rw [if_pos h]
      simp [keysOf, h]
    · rw [show (p : String × Int) = (p.1, p.2) from rfl, bumpProduct]
      rw [if_neg h]
      simp only [keysOf, List.map_cons] at ih ⊢
      rw [ih]
      by_cases hm : n ∈ List.map (fun p => p.1) rest
      · rw [if_pos hm, if_pos (List.mem_cons_of_mem _ hm)]
      · rw [if_neg hm, if_neg ?hn, List.cons_append]
        case hn =>
          intro hc
          rcases List.mem_cons.mp hc with hc | hc
          · exact h hc.symm
          · exact hm hc

theorem nodup_keys_fold (rows : List ProductRow) :
    ∀ acc : List (String × Int), (keysOf acc).Nodup →
      (keysOf (rows.foldl productStep acc)).Nodup := by
  induction rows with
  | nil => intro acc h; simpa
  | cons r rs ih =>
    intro acc h
    rw [List.foldl_cons]
    apply ih
    rw [productStep]
    match hr : rowName r with
    | none => exact h
    | some m =>
      rw [keys_bump]
      split
      · exact h
      · rename_i hm
        rw [← List.concat_eq_append]
        exact h.concat hm

theorem getVal_fold_some (rows : List ProductRow) :
    ∀ (acc : List (String × Int)) (n : String) (v : Int), getVal n acc = some v →
      getVal n (rows.foldl productStep acc) = some (v + prodSum rows n) := by
  induction rows with
  | nil => intro acc n v h; simpa [prodSum]
  | cons r rs ih =>
    intro acc n v h
    rw [List.foldl_cons, productStep]
    match hr : rowName r with
    | none =>
      rw [ih _ _ _ h, prodSum, hr]
      simp
    | some m =>
      by_cases hm : m = n
      · subst hm
        have h2 : getVal m (bumpProduct acc m r.quantity) = some (v + r.quantity) := by
          rw [getVal_bump_eq, h]
          rfl
        rw [ih _ _ _ h2, prodSum, hr, if_pos rfl, add_assoc]
      · have h2 : getVal n (bumpProduct acc m r.quantity) = some v := by
          rw [getVal_bump_ne _ _ _ _ hm, h]
        rw [ih _ _ _ h2, prodSum, hr, if_neg (by simpa using hm), zero_add]

theorem getVal_fold_none (rows : List ProductRow) :
    ∀ (acc : List (String × Int)) (n : String), getVal n acc = none →
      getVal n (rows.foldl productStep acc) =
        if appearsName rows n then some (prodSum rows n) else none := by
  induction rows with
  | nil => intro acc n h; simpa [appearsName]
  | cons r rs ih =>
    intro acc n h
    rw [List.foldl_cons, productStep]
    match hr : rowName r with
    | none =>
      rw [ih _ _ h, appearsName, hr, prodSum, hr]
      simp
    | some m =>
      by_cases hm : m = n
      · subst hm
        have h2 : getVal m (bumpProduct acc m r.quantity) = some (0 + r.quantity) := by
          rw [getVal_bump_eq, h]
          rfl
        rw [getVal_fold_some rs _ _ _ h2, appearsName, hr, prodSum, hr,
          if_pos rfl, zero_add]
        simp
      · have h2 : getVal n (bumpProduct acc m r.quantity) = none := by
          rw [getVal_bump_ne _ _ _ _ hm, h]
        rw [ih _ _ h2, appearsName, hr, prodSum, hr]
        simp [hm]

theorem getVal_of_mem : ∀ (l : List (String × Int)) (p : String × Int),
    p ∈ l → (keysOf l).Nodup → getVal p.1 l = some p.2 := by
  intro l
  induction l with
  | nil => intro p h; cases h
  | cons a rest ih =>
    intro p h hn
    have hn' := List.nodup_cons.mp
      (show (a.1 :: List.map (fun x => x.1) rest).Nodup from hn)
    rcases List.mem_cons.mp h with h | h
    · simp only [getVal]
      rw [if_pos (by rw [h]), h]
    · have hd : a.1 ≠ p.1 := by
        intro heq
        apply hn'.1
        rw [heq]
        exact List.mem_map_of_mem _ h
      simp only [getVal]
      rw [if_neg hd]
      exact ih p h hn'.2

theorem countP_key (n : String) : ∀ l : List (String × Int), (keysOf l).Nodup →
    l.countP (fun p => p.1 == n) = if (getVal n l).isSome then 1 else 0 := by
  intro l
  induction l with
  | nil => intro h; simp [getVal]
  | cons a rest ih =>
    intro hn
    have hn' := List.nodup_cons.mp
      (show (a.1 :: List.map (fun x => x.1) rest).Nodup from hn)
    rw [List.countP_cons]
    by_cases h : a.1 = n
    · have hz : rest.countP (fun p => p.1 == n) = 0 := by
        rw [List.countP_eq_zero]
        intro p hp
        simp only [beq_iff_eq]
        intro hpn
        apply hn'.1
        rw [h, ← hpn]
        exact List.mem_map_of_mem _ hp
      simp [getVal, h, hz]
    · rw [ih hn'.2]
      simp [getVal, h]

theorem appearsName_iff (rows : List ProductRow) (n : String) :
    appearsName rows n = true ↔ ∃ r ∈ rows, rowName r = some n := by
  induction rows with
  | nil => simp [appearsName]
  | cons r rs ih => simp [appearsName, ih, List.mem_cons, or_and_right, exists_or]

/-- Claim C7 (amended): the products facet has exactly one entry per distinct
trimmed, non-blank accumulated name — duplicates post-trim are summed into it —
and the output is sorted by non-increasing quantity; items lacking either key
never reach the reducer (see `queryProducts`), and a retained item with a
JSON-null quantity contributes 0, while a non-numeric quantity text fails the
whole query. -/
theorem c7_product_accumulation (rows : List ProductRow) :
    List.Pairwise prodGE (productData rows) ∧
    (∀ n : String, (productData rows).countP (fun e => e.productname == n) =
      if appearsName rows n then 1 else 0) ∧
    (∀ e ∈ productData rows, e.quantity = prodSum rows e.productname ∧
      ∃ r ∈ rows, rowName r = some e.productname) := by
  refine ⟨List.sorted_insertionSort prodGE _, ?_, ?_⟩
  · intro n
    rw [productData, (List.perm_insertionSort prodGE _).countP_eq, List.countP_map]
    have hk : ((productSummary rows).countP
        ((fun e : ProductOut => e.productname == n) ∘ fun p => (⟨p.1, p.2⟩ : ProductOut))) =
        (productSummary rows).countP (fun p => p.1 == n) := by
      apply List.countP_congr
      intro p _
      rfl
    have hnd : (keysOf (productSummary rows)).Nodup :=
      nodup_keys_fold rows [] (by simp [keysOf])
    rw [hk, countP_key n _ hnd, productSummary, getVal_fold_none rows [] n rfl]
    by_cases h : appearsName rows n
    · simp [h]
    · simp [h]
  · intro e he
    have hm : e ∈ (productSummary rows).map (fun p => (⟨p.1, p.2⟩ : ProductOut)) :=
      ((List.perm_insertionSort prodGE _).mem_iff).mp he
    rcases List.mem_map.mp hm with ⟨p, hp, hpe⟩
    have hv := getVal_of_mem _ p hp (nodup_keys_fold rows [] (by simp [keysOf]))
    rw [productSummary, getVal_fold_none rows [] p.1 rfl] at hv
    by_cases h : appearsName rows p.1
    · rw [if_pos h] at hv
      have hq : p.2 = prodSum rows p.1 := by
        injection hv with hv
        exact hv.symm
      have hname : e.productname = p.1 := by rw [← hpe]
      have hquant : e.quantity = p.2 := by rw [← hpe]
      refine ⟨by rw [hquant, hq, hname], ?_⟩
      rw [hname]
      exact (appearsName_iff rows p.1).mp h
    · rw [if_neg h] at hv
      cases hv

/-- Witness for C7: two rows trimming to the same name accumulate into the
single sorted entry with quantity 5. -/
theorem c7_product_accumulation_witness :
    List.Pairwise prodGE (productData [⟨some " a ", 2⟩, ⟨some "a", 3⟩]) ∧
    (productData [⟨some " a ", 2⟩, ⟨some "a", 3⟩]).countP
      (fun e => e.productname == "a") =
      (if appearsName [⟨some " a ", 2⟩, ⟨some "a", 3⟩] "a" then 1 else 0) ∧
    ((⟨"a", 5⟩ : ProductOut).quantity =
      prodSum [⟨some " a ", 2⟩, ⟨some "a", 3⟩] (⟨"a", 5⟩ : ProductOut).productname ∧
      ∃ r ∈ [(⟨some " a ", 2⟩ : ProductRow), ⟨some "a", 3⟩],
        rowName r = some (⟨"a", 5⟩ : ProductOut).productname) := by
  have h := c7_product_accumulation [⟨some " a ", 2⟩, ⟨some "a", 3⟩]
  exact ⟨h.1, h.2.1 "a", h.2.2 ⟨"a", 5⟩ (by decide)⟩

/-- Claim C7 counterexample: a retained line item whose quantity is the
non-numeric text 'abc' does not contribute 0 — its integer cast fails the
whole products query, and the controller answers 500 with no products facet. -/
theorem c7_counterexample :
    queryProducts [⟨1, none, "booked", some 100, none, none, 0,
      some [[("productname", .str "A"), ("quantity", .str "abc")]]⟩] =
      .error "invalid input syntax for type integer" ∧
    getSalesAnalysisE (.ok [("bookings", 0), ("fwcquotations", 0)])
      (queryProducts [⟨1, none, "booked", some 100, none, none, 0,
        some [[("productname", .str "A"), ("quantity", .str "abc")]]⟩])
      (.ok []) (.ok []) (.ok []) (.ok []) (.ok []) (.ok []) (.ok []) =
      ⟨500, .fail ⟨"Failed to fetch sales analysis",
        "invalid input syntax for type integer"⟩⟩ := by
  have h : queryProducts [⟨1, none, "booked", some 100, none, none, 0,
      some [[("productname", .str "A"), ("quantity", .str "abc")]]⟩] =
      .error "invalid input syntax for type integer" := by
    simp [queryProducts, collectRows, guardedItems, castQuantity, hasKey, textOf,
      pgTextToInt, pgDigits, pgDigitsAux, sqlLower, confirmedStatuses, List.lookup]
  refine ⟨h, ?_⟩
  rw [h]
  rfl

/-- Claim C6 counterexample: in the cities merge, a quotation-side row with a
null count and a null amount contributes NaN — not 0 — to the quotation slots,
so the facet's output values are not numeric. -/
theorem c6_counterexample :
    (combineCityData [] [⟨some "X", none, none⟩] "both").map
      (fun e => e.quotation_count) = [JNum.nan] ∧
    (combineCityData [] [⟨some "X", none, none⟩] "both").map
      (fun e => e.quotation_amount) = [JNum.nan] := by
  constructor <;>
    simp [combineCityData, cityInsert, applyRow, districtKey, emptyEntry,
      parseIntJ, parseFloatJ, JNum.add]

/-! ### Claim theorems: failure domain, probe case-sensitivity, cancellations -/

/-- Claim C3: the awaited store queries share one failure domain: when every
query resolves, the response is 200 carrying exactly the seven assembled
facets; when any query rejects, the response is the single 500 with the
message/error body and no facet fields.  (The spec counts eight queries; the
source awaits nine.) -/
theorem c3_failure_domain
    (q1 : Except String (List (String × Nat))) (q2 : Except String (List ProductRow))
    (q3 q4 : Except String (List CityRow)) (q5 : Except String (List TrendRow))
    (q6 : Except String (List ProfitRow)) (q7 : Except String (List QSRow))
    (q8 : Except String (List CustRow)) (q9 : Except String (List CancelRow)) :
    (∀ r1 r2 r3 r4 r5 r6 r7 r8 r9,
      q1 = .ok r1 → q2 = .ok r2 → q3 = .ok r3 → q4 = .ok r4 → q5 = .ok r5 →
      q6 = .ok r6 → q7 = .ok r7 → q8 = .ok r8 → q9 = .ok r9 →
      getSalesAnalysisE q1 q2 q3 q4 q5 q6 q7 q8 q9 =
        ⟨200, .ok ⟨productData r2, combineCityData r3 r4 "both", trendDataArray r5,
                   profitData r6, quotationSummary r7, customerTypeData r8,
                   cancellationData r9⟩⟩) ∧
    (¬ (q1.isOk ∧ q2.isOk ∧ q3.isOk ∧ q4.isOk ∧ q5.isOk ∧ q6.isOk ∧ q7.isOk ∧
          q8.isOk ∧ q9.isOk) →
      (getSalesAnalysisE q1 q2 q3 q4 q5 q6 q7 q8 q9).status = 500 ∧
      ∃ m, (getSalesAnalysisE q1 q2 q3 q4 q5 q6 q7 q8 q9).body =
        .fail ⟨"Failed to fetch sales analysis", m⟩) := by
  constructor
  · intro r1 r2 r3 r4 r5 r6 r7 r8 r9 h1 h2 h3 h4 h5 h6 h7 h8 h9
    subst h1
    subst h2
    subst h3
    subst h4
    subst h5
    subst h6
    subst h7
    subst h8
    subst h9
    rfl
  · intro hno
    rcases q1 with m | r1
    · exact ⟨rfl, m, rfl⟩
    rcases q2 with m | r2
    · exact ⟨rfl, m, rfl⟩
    rcases q3 with m | r3
    · exact ⟨rfl, m, rfl⟩
    rcases q4 with m | r4
    · exact ⟨rfl, m, rfl⟩
    rcases q5 with m | r5
    · exact ⟨rfl, m, rfl⟩
    rcases q6 with m | r6
    · exact ⟨rfl, m, rfl⟩
    rcases q7 with m | r7
    · exact ⟨rfl, m, rfl⟩
    rcases q8 with m | r8
    · exact ⟨rfl, m, rfl⟩
    rcases q9 with m | r9
    · exact ⟨rfl, m, rfl⟩
    simp [Except.isOk, Except.toBool] at hno

/-- Witness for C3: an all-ok battery yields the 200 report; a rejected
products query yields the 500 error body. -/
theorem c3_failure_domain_witness :
    getSalesAnalysisE (.ok [("bookings", 0), ("fwcquotations", 0)]) (.ok []) (.ok [])
      (.ok []) (.ok []) (.ok []) (.ok []) (.ok []) (.ok []) =
      ⟨200, .ok ⟨productData [], combineCityData [] [] "both", trendDataArray [],
                 profitData [], quotationSummary [], customerTypeData [],
                 cancellationData []⟩⟩ ∧
    ((getSalesAnalysisE (.ok [("bookings", 0), ("fwcquotations", 0)]) (.error "boom")
        (.ok []) (.ok []) (.ok []) (.ok []) (.ok []) (.ok []) (.ok [])).status = 500 ∧
      ∃ m, (getSalesAnalysisE (.ok [("bookings", 0), ("fwcquotations", 0)])
        (.error "boom") (.ok []) (.ok []) (.ok []) (.ok []) (.ok []) (.ok [])
        (.ok [])).body = .fail ⟨"Failed to fetch sales analysis", m⟩) := by
  constructor
  · exact (c3_failure_domain _ _ _ _ _ _ _ _ _).1 _ _ _ _ _ _ _ _ _
      rfl rfl rfl rfl rfl rfl rfl rfl rfl
  · exact (c3_failure_domain _ _ _ _ _ _ _ _ _).2 (by simp [Except.isOk, Except.toBool])

/-- Claim C4 (code evaluated at the failing input): the data-quality probe
compares the raw status, so a booking with status `Booked` and a NULL products
column is not counted while the lower-cased `booked` form is counted; the
sibling products query lower-cases its status filter and does select the same
`Booked` booking. -/
theorem c4_probe_case_sensitive :
    validateProductsQuery ⟨[⟨1, none, "Booked", none, none, none, 0, none⟩], []⟩ =
      [("bookings", 0), ("fwcquotations", 0)] ∧
    validateProductsQuery ⟨[⟨1, none, "booked", none, none, none, 0, none⟩], []⟩ =
      [("bookings", 1), ("fwcquotations", 0)] ∧
    queryProducts [⟨1, none, "Booked", some 100, none, none, 0,
      some [[("productname", .str "A"), ("quantity", .str "7")]]⟩] =
      .ok [⟨some "A", 7⟩] := by
  refine ⟨by decide, by decide, ?_⟩
  simp [queryProducts, collectRows, guardedItems, castQuantity, hasKey, textOf,
    pgTextToInt, pgDigits, pgDigitsAux, sqlLower, confirmedStatuses, List.lookup]

/-- Claim C9: the cancellations facet returns exactly the union of the
canceled orders and the canceled quotations — the output is a permutation of
one tagged entry (source type tag, identifier, COALESCEd zero-defaulted total,
timestamp) per canceled booking plus one per canceled quotation, none dropped
and none added — arranged in descending created_at order, so every adjacent
pair of entries satisfies ≥ on created_at. -/
theorem c9_cancellations_union_sorted (st : Store) :
    List.Pairwise (fun a b : CancelOut => b.created_at ≤ a.created_at)
      (cancellationData (cancellationsQuery st)) ∧
    (cancellationData (cancellationsQuery st)).Perm
      ((st.bookings.filter (fun b => sqlLower b.status == "canceled")).map
          (fun b => (⟨"booking", b.order_id, b.total.getD 0, b.created_at⟩ : CancelOut))
       ++ (st.fwcquotations.filter (fun q => sqlLower q.status == "canceled")).map
          (fun q =>
            (⟨"quotation", q.quotation_id, q.total.getD 0, q.created_at⟩ : CancelOut))) := by
  constructor
  · exact List.Pairwise.map _ (fun a b hab => hab)
      (List.sorted_insertionSort cancelGE _)
  · have hp := (List.perm_insertionSort cancelGE
      ((st.bookings.filter (fun b => sqlLower b.status == "canceled")).map
          (fun b => (⟨"booking", b.order_id, b.total.getD 0, b.created_at⟩ : CancelRow))
       ++ (st.fwcquotations.filter (fun q => sqlLower q.status == "canceled")).map
          (fun q =>
            (⟨"quotation", q.quotation_id, q.total.getD 0, q.created_at⟩ : CancelRow)))).map
      (fun r : CancelRow => (⟨r.type, r.order_id, r.total, r.created_at⟩ : CancelOut))
    refine hp.trans ?_
    rw [List.map_append, List.map_map, List.map_map]
    exact List.Perm.refl _

end SalesAnalysis
